import Mathlib

/-!
Shallow embedding of the data-acquisition pipeline of
`backend/agents/data_acquisition/agent.py` (classes `ProductData`,
`ProcessingResult`, `ProductDataParser`, `DataAcquisitionAgent`).

Modelling conventions:
* Python `float` is modelled as `ℚ`; every constant compared by the claims
  (0.0, 0.1, 0.3, 0.5, 0.7, 1.0, 450, 100000, 500, 127) is exactly
  representable and the reasoning below is insensitive to IEEE rounding at
  these magnitudes.
* External library calls (`cv2`, the Vision client, the LangChain LLM call,
  `json.loads` + pydantic construction) are oracles collected in an `Env`
  record; the repository code around them is translated exactly.
* The two regex fallback patterns of `ProductDataParser.parse`
  (`label[:\s]+([^\n]+)` and `price[:\s]+(\d+\.?\d*)`, `re.IGNORECASE`,
  `re.search`) are implemented concretely with Python leftmost/greedy
  (with backtracking) semantics.
* `processing_timestamp` (a wall-clock `datetime`) and the
  `processing_time_ms` field are not modelled; no claim mentions them.
-/

namespace KadeConnect

attribute [local semireducible] Rat.mul Rat.add Rat.sub Rat.inv Rat.ofScientific

/-- Python builtin `min` on two floats (returns the first argument on ties). -/
def pyMin (a b : ℚ) : ℚ :=
  if a ≤ b then a else b

/-- Python builtin `abs` on a float. -/
def pyAbs (a : ℚ) : ℚ :=
  if a < 0 then -a else a

/-- Characters matched by Python `\s` (the inputs here are ASCII, so the
extra Unicode whitespace of Python is irrelevant). -/
def isPySpace (c : Char) : Bool :=
  c == ' ' || c == '\t' || c == '\n' || c == '\r' || c == '\x0b' || c == '\x0c'

/-- Characters of the regex class `[:\s]` used as the label/value separator. -/
def isColonOrSpace (c : Char) : Bool :=
  c == ':' || isPySpace c

/-- Python `str.strip()` on a character list. -/
def pyStrip (s : List Char) : List Char :=
  ((s.dropWhile isPySpace).reverse.dropWhile isPySpace).reverse

/-- Python `str.strip()`. -/
def pyStripStr (s : String) : String :=
  ⟨pyStrip s.toList⟩

/-- One case-insensitive literal character of a pattern (`re.IGNORECASE`). -/
def ciChar (c : Char) (d : Char) : Bool :=
  d.toLower == c

/-- The character class `[_ ]` appearing in `product[_ ]name` / `shop[_ ]name`. -/
def underscoreOrSpace (d : Char) : Bool :=
  d == '_' || d == ' '

/-- `product[_ ]name` as a list of character predicates. -/
def labelProductName : List (Char → Bool) :=
  [ciChar 'p', ciChar 'r', ciChar 'o', ciChar 'd', ciChar 'u', ciChar 'c', ciChar 't',
   underscoreOrSpace,
   ciChar 'n', ciChar 'a', ciChar 'm', ciChar 'e']

/-- `brand` as a list of character predicates. -/
def labelBrand : List (Char → Bool) :=
  [ciChar 'b', ciChar 'r', ciChar 'a', ciChar 'n', ciChar 'd']

/-- `price` as a list of character predicates. -/
def labelPrice : List (Char → Bool) :=
  [ciChar 'p', ciChar 'r', ciChar 'i', ciChar 'c', ciChar 'e']

/-- `unit` as a list of character predicates. -/
def labelUnit : List (Char → Bool) :=
  [ciChar 'u', ciChar 'n', ciChar 'i', ciChar 't']

/-- `shop[_ ]name` as a list of character predicates. -/
def labelShopName : List (Char → Bool) :=
  [ciChar 's', ciChar 'h', ciChar 'o', ciChar 'p',
   underscoreOrSpace,
   ciChar 'n', ciChar 'a', ciChar 'm', ciChar 'e']

/-- Match the fixed-length label part of a pattern at the head of the input;
on success return the remaining input. -/
def matchLabel : List (Char → Bool) → List Char → Option (List Char)
  | [], rest => some rest
  | _ :: _, [] => none
  | p :: ps, c :: cs => if p c then matchLabel ps cs else none

/-- Match `[:\s]+([^\n]+)` at the head of `rest` with Python greedy +
backtracking semantics, returning the captured group.

`[:\s]+` greedily takes the maximal separator run.  The character after the
run (if any) is not in `[:\s]`, hence not `'\n'`, so the capture is the
maximal `≠ '\n'` run from there.  Only when the separator run ends the
string does backtracking matter: the engine gives back separator characters
until `[^\n]+` can match one, i.e. the capture becomes the last non-newline
character of the run (at index ≥ 1), every later run character being a
newline by maximality. -/
def matchSepThenLine (rest : List Char) : Option (List Char) :=
  let run := rest.takeWhile isColonOrSpace
  let tail := rest.drop run.length
  if run.isEmpty then none
  else
    match tail with
    | _ :: _ => some (tail.takeWhile (fun c => c ≠ '\n'))
    | [] =>
      match ((run.drop 1).filter (fun c => c ≠ '\n')).getLast? with
      | some c => some [c]
      | none => none

/-- Match `[:\s]+(\d+\.?\d*)` at the head of `rest`, returning the capture.
No backtracking case arises: separator characters are never digits, so if
the character after the maximal separator run is not a digit the match at
this position fails outright. -/
def matchSepThenNumber (rest : List Char) : Option (List Char) :=
  let run := rest.takeWhile isColonOrSpace
  let tail := rest.drop run.length
  if run.isEmpty then none
  else
    match tail with
    | c :: _ =>
      if c.isDigit then
        let d1 := tail.takeWhile Char.isDigit
        let t1 := tail.drop d1.length
        match t1 with
        | '.' :: t2 => some (d1 ++ '.' :: t2.takeWhile Char.isDigit)
        | _ => some d1
      else none
    | [] => none

/-- `re.search`: try the pattern at each start position, leftmost match
wins; a position where the label matches but the tail fails is skipped and
the scan continues at the next position. -/
def searchFrom (label : List (Char → Bool)) (capture : List Char → Option (List Char)) :
    List Char → Option (List Char)
  | [] => none
  | c :: cs =>
    match matchLabel label (c :: cs) with
    | some rest =>
      match capture rest with
      | some cap => some cap
      | none => searchFrom label capture cs
    | none => searchFrom label capture cs

/-- `re.search(r'product[_ ]name[:\s]+([^\n]+)', text, re.IGNORECASE)`. -/
def searchProductName (t : List Char) : Option (List Char) :=
  searchFrom labelProductName matchSepThenLine t

/-- `re.search(r'brand[:\s]+([^\n]+)', text, re.IGNORECASE)`. -/
def searchBrand (t : List Char) : Option (List Char) :=
  searchFrom labelBrand matchSepThenLine t

/-- `re.search(r'price[:\s]+(\d+\.?\d*)', text, re.IGNORECASE)`. -/
def searchPrice (t : List Char) : Option (List Char) :=
  searchFrom labelPrice matchSepThenNumber t

/-- `re.search(r'unit[:\s]+([^\n]+)', text, re.IGNORECASE)`. -/
def searchUnit (t : List Char) : Option (List Char) :=
  searchFrom labelUnit matchSepThenLine t

/-- `re.search(r'shop[_ ]name[:\s]+([^\n]+)', text, re.IGNORECASE)`. -/
def searchShopName (t : List Char) : Option (List Char) :=
  searchFrom labelShopName matchSepThenLine t

/-- Decimal digits to a natural number. -/
def digitsToNat (s : List Char) : Nat :=
  s.foldl (fun n c => 10 * n + (c.toNat - 48)) 0

/-- Python `float(...)` on a capture of shape `\d+\.?\d*` (always valid for
such captures, so this step of the fallback never raises). -/
def parsePyFloat (s : List Char) : ℚ :=
  let ip := s.takeWhile Char.isDigit
  let rest := s.drop ip.length
  match rest with
  | '.' :: frac => (digitsToNat ip : ℚ) + (digitsToNat frac : ℚ) / (10 : ℚ) ^ frac.length
  | _ => (digitsToNat ip : ℚ)

/-- `ProductData` (pydantic model), floats as `ℚ`, optional fields as
`Option`; the `processing_timestamp` field is omitted (wall clock). -/
structure ProductData where
  product_name : String
  brand : Option String := none
  price : Option ℚ := none
  unit : Option String := none
  shop_name : Option String := none
  category : Option String := none
  confidence_score : ℚ := 0
  raw_text : String := ""
deriving Repr, DecidableEq

/-- Does `text.strip()` start with a left brace (`startswith` of the JSON
sniff in `ProductDataParser.parse`)? -/
def startsWithBrace : List Char → Bool
  | c :: _ => c == '\x7b'
  | [] => false

/-- The sentinel record built in the `except` clause of
`ProductDataParser.parse`. -/
def unknownProduct (t : String) : ProductData :=
  { product_name := "Unknown Product", raw_text := t, confidence_score := 1 / 10 }

/-- The regex branch of `ProductDataParser.parse` (lines 56-87): build the
keyword dict from the five searches, add `raw_text` and the fixed 0.7
confidence, then construct `ProductData(**product_data)`.  The only way
this branch raises is pydantic's `ValidationError` when the required key
`product_name` is absent (every other captured value already has the right
type); that outcome is modelled as `none`. -/
def regexFallback (t : List Char) : Option ProductData :=
  match searchProductName t with
  | none => none
  | some nm => some
      { product_name := ⟨pyStrip nm⟩
        brand := (searchBrand t).map (fun c => (⟨pyStrip c⟩ : String))
        price := (searchPrice t).map parsePyFloat
        unit := (searchUnit t).map (fun c => (⟨pyStrip c⟩ : String))
        shop_name := (searchShopName t).map (fun c => (⟨pyStrip c⟩ : String))
        confidence_score := 7 / 10
        raw_text := ⟨t⟩ }

/-- `ProductDataParser.parse`.  `jsonDecode` is the oracle for
`json.loads(text)` followed by `ProductData(**data)` (both external-library
steps); `none` means one of the two raised, which the surrounding
`try/except` turns into the `unknownProduct` sentinel. -/
def parserParse (jsonDecode : String → Option ProductData) (text : String) : ProductData :=
  if startsWithBrace (pyStrip text.toList) then
    match jsonDecode text with
    | some pd => pd
    | none => unknownProduct text
  else
    match regexFallback text.toList with
    | some pd => pd
    | none => unknownProduct text

/-- `ProcessingResult` (pydantic model); `processing_time_ms` (wall clock)
is omitted. -/
structure ProcessingResult where
  success : Bool
  product_data : Option ProductData := none
  error_message : Option String := none
  image_quality_score : Option ℚ := none
deriving Repr, DecidableEq

/-- The external world of one `DataAcquisitionAgent`, as oracles over an
abstract raster-image type `Image`:
* `imread`: `cv2.imread` — `none` when the file cannot be decoded (OpenCV
  returns `None` rather than raising, for missing and for corrupt files
  alike); deterministic in the path, so the repeated call in the `except`
  clause of `_preprocess_image` returns the same value.
* `enhance`: the grayscale → CLAHE → denoise → sharpen chain of
  `_preprocess_image` (lines 160-173); `error` when any substep raises.
* `measure`: `cv2.Laplacian(image, CV_64F).var()` and `np.mean(image)` on a
  successfully decoded image, as a pair `(laplacian_var, mean_brightness)`;
  `error` when either computation raises.  A variance is nonnegative and a
  `uint8` mean lies in `[0, 255]`, but nothing below assumes this.
* `ocr`: `_extract_text_with_vision_api`'s interaction: `error` when
  `open`/the Vision call raises or `response.error.message` is set,
  `ok none` when there are no text annotations, `ok (some t)` for
  `texts[0].description`.
* `llm`: the `parse_prompt | llm` prefix of the chain in `_parse_with_llm`;
  the prompt template embeds the OCR text verbatim and is injective in it,
  so the oracle is indexed directly by the OCR text; `error` when the
  service call raises.
* `jsonDecode`: see `parserParse`. -/
structure Env (Image : Type) where
  imread : String → Option Image
  enhance : Image → Except String Image
  measure : Image → Except String (ℚ × ℚ)
  ocr : String → Except String (Option String)
  llm : String → Except String String
  jsonDecode : String → Option ProductData

variable {Image : Type}

/-- `DataAcquisitionAgent._preprocess_image` (lines 149-178).  When
`cv2.imread` returns `None` the code raises `ValueError`, but the blanket
`except` in the same function catches it and returns `cv2.imread(image_path)`
again — i.e. `None` again; when an enhancement substep raises, the same
`except` re-reads and returns the original decoded image.  The function
therefore never raises and returns `none` exactly on decode failure. -/
def preprocessImage (env : Env Image) (path : String) : Option Image :=
  match env.imread path with
  | none => env.imread path
  | some img =>
    match env.enhance img with
    | .ok out => some out
    | .error _ => env.imread path

/-- The arithmetic of `_assess_image_quality` on the two measures:
`focus_score = min(laplacian_var / 500, 1.0)`,
`brightness_score = 1.0 - abs(mean - 127) / 127`,
return `min(focus_score * 0.7 + brightness_score * 0.3, 1.0)`.
Note the single-sided clamp: only `min` with 1.0, no `max` with 0.0. -/
def qualityFromMeasures (lv mb : ℚ) : ℚ :=
  let focus := pyMin (lv / 500) 1
  let bright := 1 - pyAbs (mb - 127) / 127
  pyMin (focus * (7 / 10) + bright * (3 / 10)) 1

/-- `DataAcquisitionAgent._assess_image_quality` (lines 180-203), applied to
the (possibly `None`) output of `_preprocess_image`: `cv2.Laplacian(None, …)`
raises, so the `except` returns the neutral 0.5, and likewise when either
measure raises on a real image. -/
def assessImageQuality (env : Env Image) : Option Image → ℚ
  | none => 1 / 2
  | some img =>
    match env.measure img with
    | .error _ => 1 / 2
    | .ok (lv, mb) => qualityFromMeasures lv mb

/-- `DataAcquisitionAgent._extract_text_with_vision_api` (lines 205-237):
every exception is caught and converted to `""`; no annotations also give
`""`. -/
def extractTextWithVisionApi (env : Env Image) (path : String) : String :=
  match env.ocr path with
  | .error _ => ""
  | .ok none => ""
  | .ok (some t) => t

/-- The short-circuit record of `_parse_with_llm` for empty/whitespace OCR
text (lines 245-249). -/
def noTextDetected : ProductData :=
  { product_name := "No text detected", raw_text := "", confidence_score := 0 }

/-- The record built by the `except` clause of `_parse_with_llm`
(lines 262-266). -/
def parsingFailed (t : String) : ProductData :=
  { product_name := "Parsing failed", raw_text := t, confidence_score := 1 / 10 }

/-- `DataAcquisitionAgent._parse_with_llm` (lines 239-266).  The second
component records whether the external text-generation service was invoked.
The chain is `parse_prompt | llm | parser`; the parser traps its own
exceptions (see `parserParse`), so the chain raises only when the LLM call
raises, which the `except` turns into the `parsingFailed` record.  On chain
success, `result.raw_text = ocr_text` overwrites whatever the parser put
there. -/
def parseWithLLM (env : Env Image) (ocrText : String) : ProductData × Bool :=
  if pyStripStr ocrText = "" then
    (noTextDetected, false)
  else
    match env.llm ocrText with
    | .error _ => (parsingFailed ocrText, true)
    | .ok response =>
      ({ parserParse env.jsonDecode response with raw_text := ocrText }, true)

/-- Lines 304-306 of `process_image`: multiply the confidence by the image
quality, but only when it is strictly positive. -/
def adjustConfidence (pd : ProductData) (q : ℚ) : ProductData :=
  if pd.confidence_score > 0 then
    { pd with confidence_score := pd.confidence_score * q }
  else pd

/-- `DataAcquisitionAgent.process_image` (lines 268-330), without the GPS
attachment (no claim mentions it).  Every stage above traps its own
exceptions and returns a value, so the top-level `except` (lines 322-330),
which would produce `success := false` with `error_message := str(e)`, is
unreachable: the translation always takes the `try` exit. -/
def processImage (env : Env Image) (path : String) : ProcessingResult :=
  let processed := preprocessImage env path
  let quality := assessImageQuality env processed
  let ocrText := extractTextWithVisionApi env path
  let pd := adjustConfidence (parseWithLLM env ocrText).1 quality
  { success := true
    product_data := some pd
    error_message := none
    image_quality_score := some quality }

/-- The confidence carried by a `ProcessingResult` (0 when no record is
present; `processImage` always attaches one). -/
def resultConfidence (r : ProcessingResult) : ℚ :=
  match r.product_data with
  | some pd => pd.confidence_score
  | none => 0

/-- `DataAcquisitionAgent.validate_product_data` (lines 332-349).  Python
truthiness: `not product_data.product_name` is true exactly for the empty
string. -/
def validateProductData (pd : ProductData) : Bool :=
  if pd.product_name = "" ∨ pyStripStr pd.product_name = "" then false
  else if pd.confidence_score < 3 / 10 then false
  else
    match pd.price with
    | some p => if p < 1 ∨ p > 100000 then false else true
    | none => true

/-! ### Concrete environments used by the witnesses and counterexamples -/

/-- An invocation on an image file the decoder cannot read: `cv2.imread`
returns `None` (both for a missing and for a corrupt file) and the Vision
call on the corrupt bytes reports a service error. -/
def undecodableEnv : Env Unit :=
  { imread := fun _ => none
    enhance := fun i => .ok i
    measure := fun _ => .error "never reached: no decoded image"
    ocr := fun _ => .error "Vision API error: bad image data"
    llm := fun _ => .error "never reached: OCR text is empty"
    jsonDecode := fun _ => none }

/-- An invocation on a uniform all-white photograph: every pixel is 255, so
the Laplacian is identically zero (variance 0) and the mean intensity is
255; OCR finds some text and the model answers with a `label: value` line,
so the regex fallback fires with its fixed 0.7 confidence. -/
def whiteEnv : Env Unit :=
  { imread := fun _ => some ()
    enhance := fun i => .ok i
    measure := fun _ => .ok (0, 255)
    ocr := fun _ => .ok (some "Milk powder 400g")
    llm := fun _ => .ok "Product Name: Milk"
    jsonDecode := fun _ => none }

/-- A well-behaved invocation: sharp (Laplacian variance 500, saturating
the focus ceiling), perfectly exposed (mean 127), OCR succeeds and the
model answers with a parseable line. -/
def benignEnv : Env Unit :=
  { imread := fun _ => some ()
    enhance := fun i => .ok i
    measure := fun _ => .ok (500, 127)
    ocr := fun _ => .ok (some "Rice")
    llm := fun _ => .ok "Product Name: Rice"
    jsonDecode := fun _ => none }

/-- An invocation where the model responds with unparseable free text: no
`label: value` line at all, so the regex pass cannot supply the required
`product_name` key and pydantic raises inside the parser. -/
def gibberishEnv : Env Unit :=
  { imread := fun _ => some ()
    enhance := fun i => .ok i
    measure := fun _ => .ok (500, 127)
    ocr := fun _ => .ok (some "hello")
    llm := fun _ => .ok "I could not read the tag at all."
    jsonDecode := fun _ => none }

/-- An invocation where the text-generation service call itself raises. -/
def llmDownEnv : Env Unit :=
  { imread := fun _ => some ()
    enhance := fun i => .ok i
    measure := fun _ => .ok (500, 127)
    ocr := fun _ => .ok (some "hello")
    llm := fun _ => .error "LLM service unreachable"
    jsonDecode := fun _ => none }

/-- `whiteEnv` with the quality measurement itself raising inside
`_assess_image_quality`. -/
def failingMeasureEnv : Env Unit :=
  { whiteEnv with measure := fun _ => .error "cv2 raised" }

/-- A model response whose stripped form starts with a left brace but is not
valid JSON (`json.loads` raises on it), while containing a price line the
regex fallback would have extracted. -/
def malformedJson : String := "\x7b\nPrice: 450"

/-- The model response of the spec's regex-fallback test vector. -/
def riceExample : String := "Product Name: Rice 5kg\nPrice: 450"

/-- A non-JSON model response that contains the lines
`Product Name: Rice 5kg` and `Price: 450`, preceded by another
product-name line: `re.search` returns the leftmost match, so the earlier
line wins. -/
def shadowedRice : String :=
  "Product Name: Bread\nProduct Name: Rice 5kg\nPrice: 450"

/-- A model response whose stripped form starts with a left brace but is
not valid JSON. -/
def braceGibberish : String := "\x7bnot json"

/-! ### Helper lemmas -/

/-- `pyMin a b` never exceeds its second argument. -/
theorem pyMin_le_right (a b : ℚ) : pyMin a b ≤ b := by
  unfold pyMin
  split
  · assumption
  · exact le_refl b

/-- The quality score is clamped above by 1 on every path (the final
`min(quality_score, 1.0)` of `_assess_image_quality`, or the neutral
0.5). -/
theorem assessImageQuality_le_one (env : Env Image) (oi : Option Image) :
    assessImageQuality env oi ≤ 1 := by
  cases oi with
  | none => norm_num [assessImageQuality]
  | some img =>
    cases h : env.measure img with
    | error e =>
      simp only [assessImageQuality, h]
      norm_num
    | ok p =>
      obtain ⟨lv, mb⟩ := p
      simp only [assessImageQuality, h]
      exact pyMin_le_right _ _

/-- Whichever internal step of `ProductDataParser.parse` raises — a brace
response on which `json.loads`/pydantic fails, or a non-brace response
whose fallback pass finds no `product_name` — the sentinel record is
returned. -/
theorem parserParse_fails_to_unknown (jd : String → Option ProductData) (t : String)
    (h : (startsWithBrace (pyStrip t.toList) = true ∧ jd t = none) ∨
         (startsWithBrace (pyStrip t.toList) = false ∧ searchProductName t.toList = none)) :
    parserParse jd t = unknownProduct t := by
  rcases h with ⟨hb, hj⟩ | ⟨hb, hn⟩
  · have hb2 : startsWithBrace (pyStrip t.data) = true := hb
    simp [parserParse, hb2, hj]
  · have hb2 : startsWithBrace (pyStrip t.data) = false := hb
    have hn2 : searchProductName t.data = none := hn
    simp [parserParse, regexFallback, hb2, hn2]

/-- Bounds for the confidence adjustment of lines 304-306: when the quality
multiplier and the incoming confidence both lie in `[0,1]`, the adjusted
confidence stays in `[0,1]` and never exceeds the incoming one. -/
theorem adjustConfidence_bounds (pd : ProductData) (q : ℚ)
    (hq0 : 0 ≤ q) (hq1 : q ≤ 1)
    (hc0 : 0 ≤ pd.confidence_score) (hc1 : pd.confidence_score ≤ 1) :
    0 ≤ (adjustConfidence pd q).confidence_score ∧
    (adjustConfidence pd q).confidence_score ≤ 1 ∧
    (adjustConfidence pd q).confidence_score ≤ pd.confidence_score := by
  unfold adjustConfidence
  split
  · refine ⟨mul_nonneg hc0 hq0, ?_, ?_⟩
    · calc pd.confidence_score * q ≤ pd.confidence_score * 1 :=
            mul_le_mul_of_nonneg_left hq1 hc0
        _ = pd.confidence_score := mul_one _
        _ ≤ 1 := hc1
    · calc pd.confidence_score * q ≤ pd.confidence_score * 1 :=
            mul_le_mul_of_nonneg_left hq1 hc0
        _ = pd.confidence_score := mul_one _
  · exact ⟨hc0, hc1, le_refl _⟩

/-! ### Claims -/

/-- C1: the claim states that for an input path whose image cannot be
decoded, `process_image` returns `succeeded = false` with a non-empty
failure reason and no product record.  The code does the opposite: the
`ValueError` raised in `_preprocess_image` is swallowed by that function's
own `except`, which re-reads the undecodable file (obtaining `None` again),
quality assessment degrades to the neutral 0.5, OCR degrades to `""`, and
the pipeline finishes with `success = true`, an attached
`"No text detected"` product record, and no error message. -/
theorem c1_undecodable_image_reports_success :
    processImage undecodableEnv "corrupt.jpg" =
      { success := true
        product_data := some noTextDetected
        error_message := none
        image_quality_score := some (1 / 2) } ∧
    noTextDetected.product_name = "No text detected" := by
  decide

/-- C2 (counterexample): on a uniform all-white photograph (Laplacian
variance 0, mean intensity 255) the quality score is `-3/1270 < 0`, and a
successful run whose parse-stage confidence is the regex fallback's 0.7
multiplies by it, ending with a negative `confidence_score` — refuting
"`confidence_score` lies in [0,1], never negative". -/
theorem c2_confidence_negative_counterexample :
    (processImage whiteEnv "white.jpg").success = true ∧
    resultConfidence (processImage whiteEnv "white.jpg") = -21 / 12700 ∧
    ((-21 : ℚ) / 12700) < 0 := by
  decide

/-- C2 (amended): provided the image-quality score is nonnegative and the
parse-stage (pre-multiplication) confidence lies in `[0,1]`, the final
confidence of a pipeline run lies in `[0,1]` and never exceeds the
pre-multiplication confidence; the quality multiplier is applied only to a
strictly positive confidence and, being clamped above by 1, never raises
it. -/
theorem c2_confidence_bounds_amended (env : Env Image) (path : String)
    (hq : 0 ≤ assessImageQuality env (preprocessImage env path))
    (hc0 : 0 ≤ (parseWithLLM env (extractTextWithVisionApi env path)).1.confidence_score)
    (hc1 : (parseWithLLM env (extractTextWithVisionApi env path)).1.confidence_score ≤ 1) :
    0 ≤ resultConfidence (processImage env path) ∧
    resultConfidence (processImage env path) ≤ 1 ∧
    resultConfidence (processImage env path)
      ≤ (parseWithLLM env (extractTextWithVisionApi env path)).1.confidence_score := by
  have h1 := assessImageQuality_le_one env (preprocessImage env path)
  have h2 := adjustConfidence_bounds
    (parseWithLLM env (extractTextWithVisionApi env path)).1
    (assessImageQuality env (preprocessImage env path)) hq h1 hc0 hc1
  simpa [processImage, resultConfidence] using h2

/-- C2 (witness): the amended statement at a concrete well-behaved run. -/
theorem c2_confidence_bounds_witness :
    0 ≤ resultConfidence (processImage benignEnv "img.jpg") ∧
    resultConfidence (processImage benignEnv "img.jpg") ≤ 1 ∧
    resultConfidence (processImage benignEnv "img.jpg")
      ≤ (parseWithLLM benignEnv (extractTextWithVisionApi benignEnv "img.jpg")).1.confidence_score :=
  c2_confidence_bounds_amended benignEnv "img.jpg" (by decide) (by decide) (by decide)

/-- C3 (counterexample): a malformed model response that starts (after
stripping) with a left brace never reaches the regex fallback — even though
the fallback would have extracted `price = 450` from it, the parser returns
the `"Unknown Product"` sentinel with no price, refuting "for every
response that is not well-formed JSON the parser falls back to
field-by-field regex extraction".  (`json.loads` raises on this text, so
the decode oracle returns `none`.) -/
theorem c3_malformed_brace_counterexample :
    startsWithBrace (pyStrip malformedJson.toList) = true ∧
    (searchPrice malformedJson.toList).map parsePyFloat = some 450 ∧
    parserParse (fun _ => none) malformedJson = unknownProduct malformedJson ∧
    (parserParse (fun _ => none) malformedJson).price = none := by
  decide

/-- C3 (amended): for every model response that does not start (after
stripping) with a left brace and whose `product_name` pattern matches, the
parser performs field-by-field regex extraction of `product_name`, `brand`,
`price`, `unit` and `shop_name`, each matched case-insensitively on a
`label: value` line pattern, with unmatched fields remaining unset
(responses whose stripped form does start with a brace take the JSON
branch only, and a fallback pass without a `product_name` match produces
the sentinel instead — see C10). -/
theorem c3_regex_fallback_amended (jd : String → Option ProductData) (t : String)
    (nm : List Char)
    (hb : startsWithBrace (pyStrip t.toList) = false)
    (hn : searchProductName t.toList = some nm) :
    (parserParse jd t).product_name = (⟨pyStrip nm⟩ : String) ∧
    (parserParse jd t).brand
      = (searchBrand t.toList).map (fun c => (⟨pyStrip c⟩ : String)) ∧
    (parserParse jd t).price = (searchPrice t.toList).map parsePyFloat ∧
    (parserParse jd t).unit
      = (searchUnit t.toList).map (fun c => (⟨pyStrip c⟩ : String)) ∧
    (parserParse jd t).shop_name
      = (searchShopName t.toList).map (fun c => (⟨pyStrip c⟩ : String)) ∧
    (parserParse jd t).confidence_score = 7 / 10 := by
  have hb2 : startsWithBrace (pyStrip t.data) = false := hb
  have hn2 : searchProductName t.data = some nm := hn
  simp [parserParse, regexFallback, hb2, hn2]

/-- C3 (witness): the amended statement on the spec's test vector, with the
regex results evaluated. -/
theorem c3_regex_fallback_witness :
    (parserParse (fun _ => none) riceExample).product_name = "Rice 5kg" ∧
    (parserParse (fun _ => none) riceExample).brand = none ∧
    (parserParse (fun _ => none) riceExample).price = some 450 ∧
    (parserParse (fun _ => none) riceExample).confidence_score = 7 / 10 := by
  have h := c3_regex_fallback_amended (fun _ => none) riceExample
    ("Rice 5kg".toList) (by decide) (by decide)
  exact ⟨h.1.trans (by decide), h.2.1.trans (by decide),
    h.2.2.1.trans (by decide), h.2.2.2.2.2⟩

/-- C4 (counterexample): when the fallback parsing pass itself raises (no
`product_name` line in the model response, so pydantic rejects the keyword
dict), the result's `product_name` is `"Unknown Product"`, not
`"Parsing failed"` as the claim states for that failure mode. -/
theorem c4_internal_parser_failure_counterexample :
    (parseWithLLM gibberishEnv "hello").1.product_name = "Unknown Product" ∧
    (parseWithLLM gibberishEnv "hello").1.confidence_score = 1 / 10 ∧
    (parseWithLLM gibberishEnv "hello").1.raw_text = "hello" ∧
    ("Unknown Product" : String) ≠ "Parsing failed" := by
  decide

/-- C4 (amended): on non-empty OCR text, when the external service call
throws, the result is `product_name = "Parsing failed"`,
`confidence_score = 0.1`, with the original OCR text retained; when instead
the parser fails internally (brace response that does not decode, or
fallback pass without a `product_name` match), the result is
`product_name = "Unknown Product"`, `confidence_score = 0.1`, also with the
original OCR text retained. -/
theorem c4_total_failure_amended (env : Env Image) (t : String)
    (hne : pyStripStr t ≠ "") :
    (∀ e, env.llm t = .error e → (parseWithLLM env t).1 = parsingFailed t) ∧
    (∀ r, env.llm t = .ok r →
      ((startsWithBrace (pyStrip r.toList) = true ∧ env.jsonDecode r = none) ∨
       (startsWithBrace (pyStrip r.toList) = false ∧ searchProductName r.toList = none)) →
      (parseWithLLM env t).1 = { unknownProduct r with raw_text := t }) := by
  constructor
  · intro e he
    simp [parseWithLLM, hne, he]
  · intro r hr hfail
    have hu := parserParse_fails_to_unknown env.jsonDecode r hfail
    simp [parseWithLLM, hne, hr, hu]

/-- C4 (witness): both failure modes at concrete runs. -/
theorem c4_total_failure_witness :
    (parseWithLLM llmDownEnv "hello").1 = parsingFailed "hello" ∧
    (parseWithLLM gibberishEnv "hello").1
      = { unknownProduct "I could not read the tag at all." with raw_text := "hello" } := by
  constructor
  · exact (c4_total_failure_amended llmDownEnv "hello" (by decide)).1
      "LLM service unreachable" rfl
  · exact (c4_total_failure_amended gibberishEnv "hello" (by decide)).2
      "I could not read the tag at all." rfl (Or.inr ⟨by decide, by decide⟩)

/-- C5: for every empty or whitespace-only OCR input, `_parse_with_llm`
short-circuits to `product_name = "No text detected"` with
`confidence_score = 0` and never invokes the external text-generation
service (the invocation flag is `false`). -/
theorem c5_empty_ocr_short_circuit (env : Env Image) (t : String)
    (h : pyStripStr t = "") :
    (parseWithLLM env t).1.product_name = "No text detected" ∧
    (parseWithLLM env t).1.confidence_score = 0 ∧
    (parseWithLLM env t).2 = false := by
  simp [parseWithLLM, h, noTextDetected]

/-- C5 (witness): the short-circuit on a whitespace-only input. -/
theorem c5_empty_ocr_short_circuit_witness :
    (parseWithLLM benignEnv "   ").1.product_name = "No text detected" ∧
    (parseWithLLM benignEnv "   ").1.confidence_score = 0 ∧
    (parseWithLLM benignEnv "   ").2 = false :=
  c5_empty_ocr_short_circuit benignEnv "   " (by decide)

/-- C6 (counterexample): a non-JSON response containing the exact lines
`Product Name: Rice 5kg` and `Price: 450` for which regex-fallback parsing
does NOT yield `product_name = "Rice 5kg"`: `re.search` returns the
leftmost match, so an earlier product-name line wins. -/
theorem c6_rice_shadowed_counterexample :
    ("Product Name: Rice 5kg".toList <:+: shadowedRice.toList) ∧
    ("Price: 450".toList <:+: shadowedRice.toList) ∧
    startsWithBrace (pyStrip shadowedRice.toList) = false ∧
    (parserParse (fun _ => none) shadowedRice).product_name = "Bread" ∧
    ("Bread" : String) ≠ "Rice 5kg" := by
  decide

/-- C6 (amended): regex-fallback parsing of the two-line response
`"Product Name: Rice 5kg\nPrice: 450"` (where those lines are the leftmost
matches) yields `product_name = "Rice 5kg"` and `price = 450.0`; and on
every non-brace response whose `product_name` pattern matches, the
regex-fallback path sets `confidence_score = 0.7` regardless of how many
of the other fields matched. -/
theorem c6_regex_confidence_amended (jd : String → Option ProductData) (t : String)
    (hb : startsWithBrace (pyStrip t.toList) = false)
    (hn : searchProductName t.toList ≠ none) :
    (parserParse jd t).confidence_score = 7 / 10 ∧
    (parserParse (fun _ => none) riceExample).product_name = "Rice 5kg" ∧
    (parserParse (fun _ => none) riceExample).price = some 450 ∧
    (parserParse (fun _ => none) riceExample).confidence_score = 7 / 10 := by
  refine ⟨?_, by decide, by decide, by decide⟩
  cases hsn : searchProductName t.toList with
  | none => exact absurd hsn hn
  | some nm =>
    have hb2 : startsWithBrace (pyStrip t.data) = false := hb
    have hn2 : searchProductName t.data = some nm := hsn
    simp [parserParse, regexFallback, hb2, hn2]

/-- C6 (witness): the fixed 0.7 on a response where only `brand` matched
besides `product_name`. -/
theorem c6_regex_confidence_witness :
    (parserParse (fun _ => none) "Brand: Anchor\nProduct Name: Milk").confidence_score
      = 7 / 10 :=
  (c6_regex_confidence_amended (fun _ => none) "Brand: Anchor\nProduct Name: Milk"
    (by decide) (by decide)).1

/-- C7: the claim (and the function's own docstring, "Returns score from
0.0 to 1.0") says the combined quality score is clamped to [0,1]; the code
clamps only above (`min(quality_score, 1.0)`).  On a uniform all-white
image — Laplacian variance 0, mean 255 — the score is
`0.3 · (1 − 128/127) = −3/1270 < 0`.  The failure default of 0.5 does
hold. -/
theorem c7_white_image_negative_quality :
    assessImageQuality whiteEnv (some ()) = -3 / 1270 ∧
    ((-3 : ℚ) / 1270) < 0 ∧
    assessImageQuality failingMeasureEnv (some ()) = 1 / 2 := by
  decide

/-- C8: `validate_product_data` rejects every record with empty
`product_name`, every record with `confidence_score < 0.3`, and every
record with a provided price outside [1, 100000]; it rejects the spec's
three concrete rejection vectors and accepts
`product_name = "Tea"`, `confidence_score = 0.5`, `price = 300`.  (In this
pure embedding the function is a plain `ProductData → Bool`, so the
no-mutation part is immediate; the source likewise only reads its
argument.) -/
theorem c8_validator_spec :
    (∀ pd : ProductData, pd.product_name = "" → validateProductData pd = false) ∧
    (∀ pd : ProductData, pd.confidence_score < 3 / 10 → validateProductData pd = false) ∧
    (∀ (pd : ProductData) (p : ℚ), pd.price = some p → (p < 1 ∨ p > 100000) →
        validateProductData pd = false) ∧
    validateProductData
      { product_name := "Tea", confidence_score := 1 / 2, price := some 300 } = true ∧
    validateProductData
      { product_name := "Tea", confidence_score := 1 / 2, price := some 200000 } = false ∧
    validateProductData
      { product_name := "", confidence_score := 1 / 2, price := some 300 } = false ∧
    validateProductData
      { product_name := "Tea", confidence_score := 1 / 5, price := some 300 } = false := by
  refine ⟨?_, ?_, ?_, by decide, by decide, by decide, by decide⟩
  · intro pd h
    unfold validateProductData
    rw [if_pos (Or.inl h)]
  · intro pd h
    by_cases hname : pd.product_name = "" ∨ pyStripStr pd.product_name = ""
    · unfold validateProductData
      rw [if_pos hname]
    · unfold validateProductData
      rw [if_neg hname, if_pos h]
  · intro pd p hp hout
    by_cases hname : pd.product_name = "" ∨ pyStripStr pd.product_name = ""
    · unfold validateProductData
      rw [if_pos hname]
    · by_cases hconf : pd.confidence_score < 3 / 10
      · unfold validateProductData
        rw [if_neg hname, if_pos hconf]
      · unfold validateProductData
        rw [if_neg hname, if_neg hconf, hp]
        show (if p < 1 ∨ p > 100000 then false else true) = false
        exact if_pos hout

/-- C8 (witness): the rejection clauses applied at the spec's concrete
vectors. -/
theorem c8_validator_spec_witness :
    validateProductData
      { product_name := "Tea", confidence_score := 1 / 5, price := some 300 } = false ∧
    validateProductData
      { product_name := "", confidence_score := 1 / 2, price := some 300 } = false ∧
    validateProductData
      { product_name := "Tea", confidence_score := 1 / 2, price := some 200000 } = false :=
  ⟨c8_validator_spec.2.1 _ (by decide),
   c8_validator_spec.1 _ rfl,
   c8_validator_spec.2.2.1 _ 200000 rfl (Or.inr (by decide))⟩

/-- C9 (counterexample): on a whitespace-only (but non-empty) OCR input the
short-circuit record carries `raw_text = ""`, not the original input, so
`raw_text` is not "exactly the original OCR input text" in every record
the stage produces. -/
theorem c9_whitespace_raw_text_counterexample :
    (parseWithLLM benignEnv " ").1.raw_text = "" ∧
    (" " : String) ≠ "" := by
  decide

/-- C9 (amended): `raw_text` equals the original OCR input text on every
path through the structured-extraction stage — the JSON path, the
regex-fallback path, and every failure path — except the empty-input
short-circuit, where it is the empty string (and hence still equals the
input exactly when the input is the empty string). -/
theorem c9_raw_text_amended (env : Env Image) (t : String) :
    (parseWithLLM env t).1.raw_text = if pyStripStr t = "" then "" else t := by
  by_cases h : pyStripStr t = ""
  · simp [parseWithLLM, h, noTextDetected]
  · simp only [parseWithLLM, h, if_false, if_neg h]
    cases henv : env.llm t with
    | error e => simp [parsingFailed]
    | ok r => simp

/-- C10: whenever `ProductDataParser.parse` fails internally — a response
whose stripped form starts with a left brace but on which
`json.loads`/pydantic construction raises, or a regex-fallback pass whose
required `product_name` pattern found no match (the one way that pass can
raise) — the parser returns the sentinel `product_name = "Unknown
Product"`, `confidence_score = 0.1`, `raw_text` set to the model's
response text, instead of propagating the exception or reaching the
fallback. -/
theorem c10_parser_internal_failure (jd : String → Option ProductData) (t : String)
    (h : (startsWithBrace (pyStrip t.toList) = true ∧ jd t = none) ∨
         (startsWithBrace (pyStrip t.toList) = false ∧ searchProductName t.toList = none)) :
    parserParse jd t = unknownProduct t ∧
    (unknownProduct t).product_name = "Unknown Product" ∧
    (unknownProduct t).confidence_score = 1 / 10 ∧
    (unknownProduct t).raw_text = t :=
  ⟨parserParse_fails_to_unknown jd t h, rfl, rfl, rfl⟩

/-- C10 (witness): the sentinel on a concrete malformed brace response with
a decode oracle that fails on it (as `json.loads` does). -/
theorem c10_parser_internal_failure_witness :
    parserParse (fun _ => none) braceGibberish = unknownProduct braceGibberish ∧
    (unknownProduct braceGibberish).product_name = "Unknown Product" ∧
    (unknownProduct braceGibberish).confidence_score = 1 / 10 ∧
    (unknownProduct braceGibberish).raw_text = braceGibberish :=
  c10_parser_internal_failure (fun _ => none) braceGibberish (Or.inl ⟨by decide, rfl⟩)

end KadeConnect
